import Mathlib

/-!
Shallow embedding of the catch-unwind utility library (src/src/lib.rs).

Modelling choices:

* A value is drawn from an arbitrary type `V`; its finalizer behaviour is a
  coalgebra `beh : V → Option V`.  `beh v = none` means dropping `v` completes
  normally; `beh v = some p` means dropping `v` raises an unwinding panic whose
  payload is `p`.  Since payloads are themselves values that will later be
  dropped, this represents arbitrary (also unbounded) chains of
  panic-on-drop values.

* Executing a computation yields an `Outcome` (normal return, unwinding panic
  with a payload, or process abort) together with a log of observable
  finalization events: `finalizerRan v` records that the finalizer of `v` was
  invoked, `forgotten v` records that `v` was leaked via `mem::forget` (its
  finalizer will never run).

* `std::panic::catch_unwind` converts a panic outcome into a normal return of
  `Except.error payload`; it does not intercept a process abort.

* The `Payload` carrier (struct `Payload(Option<Box<dyn Any + Send>>)`) is
  modelled by its state `Option V`: `some p` is the payload-present state,
  `none` the payload-consumed state.  Methods that internally
  `self.0.take().unwrap()` are partial: their model returns `Option _`, with
  `none` marking the branch where the `unwrap` (or the `unreachable!()` in
  `get`/`get_mut`) would panic.
-/

namespace CatchUnwind

/-- Finalizer behaviour of values: `none` = dropping completes normally,
`some p` = dropping raises an unwinding panic with payload `p`. -/
def DropBeh (V : Type) : Type := V → Option V

/-- Observable finalization events produced while running library code. -/
inductive Event (V : Type) where
  | finalizerRan (v : V)
  | forgotten (v : V)
  deriving DecidableEq

/-- Outcome of running a computation: normal return, unwinding panic carrying a
payload, or process termination via `abort`. -/
inductive Outcome (V : Type) (α : Type) where
  | ok (a : α)
  | panic (p : V)
  | abort
  deriving DecidableEq

/-- A computation result: its outcome together with the finalization events it
produced, in order. -/
abbrev Res (V : Type) (α : Type) : Type := Outcome V α × List (Event V)

/-- Sequencing of effects: run the first computation; if it returns normally,
feed its value to the continuation, accumulating event logs.  A panic or an
abort short-circuits. -/
def Res.bind {V α β : Type} : Res V α → (α → Res V β) → Res V β
  | (Outcome.ok a, l), f => ((f a).1, l ++ (f a).2)
  | (Outcome.panic p, l), _ => (Outcome.panic p, l)
  | (Outcome.abort, l), _ => (Outcome.abort, l)

/-- Dropping a value (`mem::drop`): its finalizer runs; by `beh` it either
completes normally or raises the secondary payload. -/
def dropValue {V : Type} (beh : DropBeh V) (v : V) : Res V Unit :=
  match beh v with
  | none => (Outcome.ok (), [Event.finalizerRan v])
  | some p => (Outcome.panic p, [Event.finalizerRan v])

/-- Boundary primitive `std::panic::catch_unwind`: a panic of the inner
computation becomes `Except.error payload`; a normal return becomes
`Except.ok`; an abort passes through (it is not catchable). -/
def catchUnwind {V α : Type} : Res V α → Res V (Except V α)
  | (Outcome.ok a, l) => (Outcome.ok (Except.ok a), l)
  | (Outcome.panic p, l) => (Outcome.ok (Except.error p), l)
  | (Outcome.abort, l) => (Outcome.abort, l)

/-- The effect `std::process::abort`: terminates the process. -/
def abortEff {V α : Type} : Res V α := (Outcome.abort, [])

/-- The effect `mem::forget v`: returns normally, leaks `v` (records that its
finalizer will never run). -/
def forgetEff {V : Type} (v : V) : Res V Unit := (Outcome.ok (), [Event.forgotten v])

/-- Source `drop_or_else`: `catch_unwind(AssertUnwindSafe(move || mem::drop(value))).map_err(or_else)`.
The handler is effectful (the library instantiates it with `abort` and
`mem::forget`); if it runs, its value becomes the `Err` of the call. -/
def drop_or_else {V E : Type} (beh : DropBeh V) (v : V) (orElse : V → Res V E) :
    Res V (Except E Unit) :=
  Res.bind (catchUnwind (dropValue beh v)) (fun r =>
    match r with
    | Except.ok u => (Outcome.ok (Except.ok u), [])
    | Except.error p => Res.bind (orElse p) (fun e => (Outcome.ok (Except.error e), [])))

/-- Source `drop_or_abort`: `let _ = drop_or_else(value, |_err| abort());`. -/
def drop_or_abort {V : Type} (beh : DropBeh V) (v : V) : Res V Unit :=
  Res.bind (drop_or_else beh v (fun _ => (abortEff : Res V Empty))) (fun _ => (Outcome.ok (), []))

/-- Source `drop_or_forget`: `let _ = drop_or_else(value, mem::forget);`. -/
def drop_or_forget {V : Type} (beh : DropBeh V) (v : V) : Res V Unit :=
  Res.bind (drop_or_else beh v forgetEff) (fun _ => (Outcome.ok (), []))

/-- A pure secondary-failure handler (a caller-supplied plain function from the
captured payload to an error value), as an effectful handler. -/
def pureHandler {V E : Type} (f : V → E) : V → Res V E :=
  fun p => (Outcome.ok (f p), [])

/-- Source `catch_unwind_or_abort`: run the work inside a boundary; on panic,
dispose of the payload with the abort policy and return `None`. -/
def catch_unwind_or_abort {V R : Type} (beh : DropBeh V) (w : Res V R) : Res V (Option R) :=
  Res.bind (catchUnwind w) (fun r =>
    match r with
    | Except.ok a => (Outcome.ok (some a), [])
    | Except.error p => Res.bind (drop_or_abort beh p) (fun _ => (Outcome.ok none, [])))

/-- Source `catch_unwind_or_forget`: run the work inside a boundary; on panic,
dispose of the payload with the forget policy and return `None`. -/
def catch_unwind_or_forget {V R : Type} (beh : DropBeh V) (w : Res V R) : Res V (Option R) :=
  Res.bind (catchUnwind w) (fun r =>
    match r with
    | Except.ok a => (Outcome.ok (some a), [])
    | Except.error p => Res.bind (drop_or_forget beh p) (fun _ => (Outcome.ok none, [])))

namespace Payload

/-- Source `Payload::get`: borrows the payload; the `none` result marks the
`unreachable!()` branch taken when called in the consumed state. -/
def get {V : Type} (s : Option V) : Option V := s

/-- Source `Payload::get_mut`: borrows the payload mutably; the `none` result
marks the `unreachable!()` branch taken when called in the consumed state. -/
def get_mut {V : Type} (s : Option V) : Option V := s

/-- Source `Payload::into_inner`: `self.0.take().unwrap()`.  Consumes the
carrier and extracts the raw payload; the `none` result marks the `unwrap`
panic in the consumed state. -/
def into_inner {V : Type} (s : Option V) : Option V := s

/-- Source `Payload::drop_or_abort` method: `drop_or_abort(self.into_inner())`.
Partial because of the `unwrap` inside `into_inner`. -/
def dropOrAbort {V : Type} (beh : DropBeh V) (s : Option V) : Option (Res V Unit) :=
  (into_inner s).map (fun v => drop_or_abort beh v)

/-- Source `Payload::drop_or_forget` method: `drop_or_forget(self.into_inner())`.
Partial because of the `unwrap` inside `into_inner`. -/
def dropOrForget {V : Type} (beh : DropBeh V) (s : Option V) : Option (Res V Unit) :=
  (into_inner s).map (fun v => drop_or_forget beh v)

/-- Source `Payload::resume_unwind` method:
`resume_unwind(self.into_inner())` re-raises the interruption with the owned
payload; it never returns normally.  Partial because of the `unwrap`. -/
def resumeUnwind {V : Type} (s : Option V) : Option (Res V Unit) :=
  (into_inner s).map (fun v => ((Outcome.panic v : Outcome V Unit), []))

/-- Source `impl Drop for Payload`: `if let Some(payload) = self.0.take() { drop_or_abort(payload) }`.
Total: in the consumed state it is a no-op. -/
def dropImpl {V : Type} (beh : DropBeh V) (s : Option V) : Res V Unit :=
  match s with
  | some p => drop_or_abort beh p
  | none => (Outcome.ok (), [])

end Payload

/-- Source `catch_unwind_wrapped`: `catch_unwind(f).map_err(|e| Payload(Some(e)))`.
The `Err` case hands back a carrier in the payload-present state. -/
def catch_unwind_wrapped {V R : Type} (w : Res V R) :
    Res V (Except (Option V) R) :=
  Res.bind (catchUnwind w) (fun r =>
    match r with
    | Except.ok a => (Outcome.ok (Except.ok a), [])
    | Except.error p => (Outcome.ok (Except.error (some p)), []))

/-- Iterating the finalizer behaviour from a starting payload: the chain of
payloads raised by successive finalizations. -/
def chainFrom {V : Type} (beh : DropBeh V) (p : V) : Nat → Option V
  | 0 => some p
  | n + 1 =>
    match chainFrom beh p n with
    | some q => beh q
    | none => none

/-- A payload whose finalizer raises recursively without bound: every iterate
of the finalizer behaviour raises again. -/
def EndlessChain {V : Type} (beh : DropBeh V) (p : V) : Prop :=
  ∀ n, (chainFrom beh p n).isSome

/-- The derived program of the refinement claim about `catch_unwind_or_abort`:
run `catch_unwind_wrapped`, map `Ok(r)` to `Some(r)`, and on `Err(carrier)` let
the carrier go out of scope unconsumed (its `Drop` impl runs) and return `None`. -/
def wrappedThenDefaultDrop {V R : Type} (beh : DropBeh V) (w : Res V R) : Res V (Option R) :=
  Res.bind (catch_unwind_wrapped w) (fun r =>
    match r with
    | Except.ok a => (Outcome.ok (some a), [])
    | Except.error s => Res.bind (Payload.dropImpl beh s) (fun _ => (Outcome.ok none, [])))

/-- Modelled from the spec: the `Disposition` closed variant set of §3/§6
(`DropOrAbort | DropOrForget | DropOrUnwind | ResumeUnwind`); the type is
absent from src/. -/
inductive Disposition where
  | dropOrAbort
  | dropOrForget
  | dropOrUnwind
  | resumeUnwind
  deriving DecidableEq

/-- Modelled from the spec: `catch_unwind_with` (§4.4), absent from src/.  Run
the work inside a boundary; on success return the result; on interruption run
`inspect(payload)` inside its own nested boundary; if `inspect` completes
normally apply the returned `Disposition` to the payload (`ResumeUnwind`
re-raises, `DropOrAbort`/`DropOrForget` apply guarded disposal and return
`None`, `DropOrUnwind` finalizes with no secondary guard); if `inspect` itself
raises, terminate the process immediately. -/
def catch_unwind_with {V R : Type} (beh : DropBeh V) (w : Res V R)
    (inspect : V → Res V Disposition) : Res V (Option R) :=
  Res.bind (catchUnwind w) (fun r =>
    match r with
    | Except.ok a => (Outcome.ok (some a), [])
    | Except.error p =>
      Res.bind (catchUnwind (inspect p)) (fun ir =>
        match ir with
        | Except.ok Disposition.dropOrAbort =>
          Res.bind (drop_or_abort beh p) (fun _ => (Outcome.ok none, []))
        | Except.ok Disposition.dropOrForget =>
          Res.bind (drop_or_forget beh p) (fun _ => (Outcome.ok none, []))
        | Except.ok Disposition.dropOrUnwind =>
          Res.bind (dropValue beh p) (fun _ => (Outcome.ok none, []))
        | Except.ok Disposition.resumeUnwind => (Outcome.panic p, [])
        | Except.error _ => (Outcome.abort, [])))

/-- Public operations available on a Payload carrier: borrowing operations
(`get`, `get_mut`) and consuming ones (`into_inner`, the `drop_or_abort` /
`drop_or_forget` methods, `resume_unwind`, and the implicit drop at scope
end). -/
inductive PubOp where
  | get
  | getMut
  | intoInner
  | dropAbort
  | dropForget
  | resume
  | dropScope
  deriving DecidableEq

/-- Whether a public operation consumes the carrier (takes `self` by value, or
is the destructor): after it, ownership rules make the carrier inaccessible. -/
def consuming : PubOp → Bool
  | PubOp.get => false
  | PubOp.getMut => false
  | PubOp.intoInner => true
  | PubOp.dropAbort => true
  | PubOp.dropForget => true
  | PubOp.resume => true
  | PubOp.dropScope => true

/-- One public operation on a carrier state: the resulting state, paired with
whether every internal check passed (`false` marks a hit of the
`unreachable!()` branch of `get`/`get_mut` or of the `unwrap` inside
`into_inner`). -/
def stepOp {V : Type} (s : Option V) : PubOp → Option V × Bool
  | PubOp.get => (s, (Payload.get s).isSome)
  | PubOp.getMut => (s, (Payload.get_mut s).isSome)
  | PubOp.intoInner => (none, (Payload.into_inner s).isSome)
  | PubOp.dropAbort => (none, (Payload.into_inner s).isSome)
  | PubOp.dropForget => (none, (Payload.into_inner s).isSome)
  | PubOp.resume => (none, (Payload.into_inner s).isSome)
  | PubOp.dropScope => (none, true)

/-- Run a sequence of public operations from a carrier state, accumulating
whether every internal check along the way passed. -/
def runOps {V : Type} : Option V → List PubOp → Option V × Bool
  | s, [] => (s, true)
  | s, o :: rest =>
    ((runOps (stepOp s o).1 rest).1, (stepOp s o).2 && (runOps (stepOp s o).1 rest).2)

/-- Operation sequences permitted by the public contract (Rust ownership): any
number of borrowing operations, then exactly one consuming operation, after
which the carrier no longer exists. -/
def LegalTrace (ops : List PubOp) : Prop :=
  ∃ pre last, ops = pre ++ [last] ∧ (∀ o ∈ pre, consuming o = false) ∧ consuming last = true

end CatchUnwind

namespace CatchUnwind

/-- C1: for every value and every handler function, `drop_or_else(value, handler)`
returns `Ok(())` when dropping the value completes normally, and when dropping
the value raises an unwinding panic with secondary payload `p`, the handler is
applied to `p` and its result is returned as the `Err` of the overall call. -/
theorem c1_drop_or_else_spec {V E : Type} (beh : DropBeh V) (v : V) (f : V → E) :
    (beh v = none →
      drop_or_else beh v (pureHandler f) =
        ((Outcome.ok (Except.ok ()) : Outcome V (Except E Unit)), [Event.finalizerRan v])) ∧
    (∀ p, beh v = some p →
      drop_or_else beh v (pureHandler f) =
        ((Outcome.ok (Except.error (f p)) : Outcome V (Except E Unit)), [Event.finalizerRan v])) := by
  constructor
  · intro h
    simp [drop_or_else, dropValue, h, catchUnwind, Res.bind, pureHandler]
  · intro p h
    simp [drop_or_else, dropValue, h, catchUnwind, Res.bind, pureHandler]

/-- Witness for C1 at concrete inputs: a value whose finalizer completes
normally, and a value whose finalizer raises payload `7`. -/
theorem c1_drop_or_else_spec_witness :
    drop_or_else (V := Nat) (fun _ => none) 3 (pureHandler (fun p => p + 1)) =
      (Outcome.ok (Except.ok ()), [Event.finalizerRan 3]) ∧
    drop_or_else (V := Nat) (fun _ => some 7) 3 (pureHandler (fun p => p + 1)) =
      (Outcome.ok (Except.error 8), [Event.finalizerRan 3]) :=
  ⟨(c1_drop_or_else_spec (fun _ => none) 3 (fun p => p + 1)).1 rfl,
   (c1_drop_or_else_spec (fun _ => some 7) 3 (fun p => p + 1)).2 7 rfl⟩

/-- C6: for every unit of work that completes normally producing `r`, each
capture variant returns a present result equal to `r` (`Some r`, resp. `Ok r`),
and no payload is ever constructed (no finalization event is added to the
work's own log). -/
theorem c6_success_capture {V R : Type} (beh : DropBeh V) (r : R) (l : List (Event V)) :
    catch_unwind_or_abort beh (Outcome.ok r, l) = (Outcome.ok (some r), l) ∧
    catch_unwind_or_forget beh (Outcome.ok r, l) = (Outcome.ok (some r), l) ∧
    catch_unwind_wrapped (Outcome.ok r, l) = (Outcome.ok (Except.ok r), l) := by
  refine ⟨?_, ?_, ?_⟩ <;>
    simp [catch_unwind_or_abort, catch_unwind_or_forget, catch_unwind_wrapped,
      catchUnwind, Res.bind]

/-- C8: for every value whose finalizer does not raise, both `drop_or_abort`
and `drop_or_forget` complete normally, with no process termination and no
leak: the finalizer runs exactly once and nothing is forgotten. -/
theorem c8_benign_finalizer {V : Type} (beh : DropBeh V) (v : V) (h : beh v = none) :
    drop_or_abort beh v = (Outcome.ok (), [Event.finalizerRan v]) ∧
    drop_or_forget beh v = (Outcome.ok (), [Event.finalizerRan v]) := by
  constructor <;>
    simp [drop_or_abort, drop_or_forget, drop_or_else, dropValue, h, catchUnwind, Res.bind]

/-- Witness for C8 at a concrete input: the value `5` whose finalizer completes
normally. -/
theorem c8_benign_finalizer_witness :
    drop_or_abort (V := Nat) (fun _ => none) 5 = (Outcome.ok (), [Event.finalizerRan 5]) ∧
    drop_or_forget (V := Nat) (fun _ => none) 5 = (Outcome.ok (), [Event.finalizerRan 5]) :=
  c8_benign_finalizer (fun _ => none) 5 rfl

/-- C2: for every unit of work raising an interruption whose payload's
finalizer raises recursively without bound, `catch_unwind_or_abort` terminates
the process, while `catch_unwind_or_forget` returns `None` and leaks the chain
(the secondary payload, head of the rest of the chain, is forgotten) without
crashing or hanging. -/
theorem c2_endless_chain {V R : Type} (beh : DropBeh V) (p : V) (l : List (Event V))
    (h : EndlessChain beh p) :
    (catch_unwind_or_abort beh ((Outcome.panic p : Outcome V R), l)).1 = Outcome.abort ∧
    ∃ p2, beh p = some p2 ∧
      catch_unwind_or_forget beh ((Outcome.panic p : Outcome V R), l) =
        (Outcome.ok none, l ++ [Event.finalizerRan p, Event.forgotten p2]) := by
  have h1 : (beh p).isSome := by
    have := h 1
    simpa [chainFrom] using this
  obtain ⟨p2, hp2⟩ := Option.isSome_iff_exists.mp h1
  refine ⟨?_, p2, hp2, ?_⟩
  · simp [catch_unwind_or_abort, catchUnwind, Res.bind, drop_or_abort, drop_or_else,
      dropValue, hp2, abortEff]
  · simp [catch_unwind_or_forget, catchUnwind, Res.bind, drop_or_forget, drop_or_else,
      dropValue, hp2, forgetEff]

/-- Witness for C2 at a concrete input: the single value of `Unit`, whose
finalizer always raises itself again, an unbounded chain. -/
theorem c2_endless_chain_witness :
    (catch_unwind_or_abort (fun _ : Unit => some ())
        ((Outcome.panic () : Outcome Unit Nat), [])).1 = Outcome.abort ∧
    ∃ p2, (fun _ : Unit => some ()) () = some p2 ∧
      catch_unwind_or_forget (fun _ : Unit => some ())
          ((Outcome.panic () : Outcome Unit Nat), []) =
        (Outcome.ok none, [] ++ [Event.finalizerRan (), Event.forgotten p2]) :=
  c2_endless_chain (fun _ => some ()) () []
    (by
      intro n
      induction n with
      | zero => rfl
      | succ n ih =>
        simp only [chainFrom]
        rcases hc : chainFrom (fun _ : Unit => some ()) () n with _ | q
        · rw [hc] at ih; simp at ih
        · simp)

/-- Counterexample to C9 as stated: in the two-level scenario (the finalizer of
`P1 = 1` raises `P2 = 2`, whose finalizer completes normally),
`drop_or_forget(P1)` does not leak `P1`: `P1` is never forgotten — its
finalizer actually runs (that is how `P2` arises); what is forgotten is `P2`. -/
theorem c9_two_level_chain_counterexample :
    Event.forgotten 1 ∉
      (drop_or_forget (fun n : Nat => if n = 1 then some 2 else none) 1).2 ∧
    Event.finalizerRan 1 ∈
      (drop_or_forget (fun n : Nat => if n = 1 then some 2 else none) 1).2 := by
  decide

/-- C9 (amended): for every payload `P1` whose finalizer raises a payload `P2`
whose own finalizer completes normally, `drop_or_forget(P1)` returns normally,
`P1`'s finalizer having run and raised `P2`, which is forgotten (leaked), so
`P2` is never finalized; and `drop_or_abort(P1)` terminates the process before
returning. -/
theorem c9_two_level_chain {V : Type} (beh : DropBeh V) (p1 p2 : V)
    (h1 : beh p1 = some p2) (h2 : beh p2 = none) :
    drop_or_forget beh p1 = (Outcome.ok (), [Event.finalizerRan p1, Event.forgotten p2]) ∧
    Event.finalizerRan p2 ∉ (drop_or_forget beh p1).2 ∧
    drop_or_abort beh p1 = (Outcome.abort, [Event.finalizerRan p1]) := by
  have hne : p1 ≠ p2 := by
    intro he
    rw [he, h2] at h1
    exact Option.noConfusion h1
  refine ⟨?_, ?_, ?_⟩
  · simp [drop_or_forget, drop_or_else, dropValue, h1, catchUnwind, Res.bind, forgetEff]
  · simp [drop_or_forget, drop_or_else, dropValue, h1, catchUnwind, Res.bind, forgetEff,
      Ne.symm hne]
  · simp [drop_or_abort, drop_or_else, dropValue, h1, catchUnwind, Res.bind, abortEff]

/-- Witness for the amended C9 at concrete inputs: `P1 = 1` raises `P2 = 2` on
finalization, `P2`'s finalizer completes normally. -/
theorem c9_two_level_chain_witness :
    drop_or_forget (fun n : Nat => if n = 1 then some 2 else none) 1 =
      (Outcome.ok (), [Event.finalizerRan 1, Event.forgotten 2]) ∧
    Event.finalizerRan 2 ∉
      (drop_or_forget (fun n : Nat => if n = 1 then some 2 else none) 1).2 ∧
    drop_or_abort (fun n : Nat => if n = 1 then some 2 else none) 1 =
      (Outcome.abort, [Event.finalizerRan 1]) :=
  c9_two_level_chain (fun n => if n = 1 then some 2 else none) 1 2 (by decide) (by decide)

/-- C4: a Payload carrier constructed as the `Err` result of
`catch_unwind_wrapped` and then dropped without any explicit consuming call
behaves identically to calling `drop_or_abort` on its payload: the payload is
finalized, and the process is terminated if that finalization raises. -/
theorem c4_unconsumed_drop_aborts {V R : Type} (beh : DropBeh V) (w : Res V R)
    (p : V) (l : List (Event V)) (h : w = (Outcome.panic p, l)) :
    catch_unwind_wrapped w = (Outcome.ok (Except.error (some p)), l) ∧
    Payload.dropImpl beh (some p) = drop_or_abort beh p ∧
    (beh p = none →
      Payload.dropImpl beh (some p) = (Outcome.ok (), [Event.finalizerRan p])) ∧
    (∀ q, beh p = some q →
      Payload.dropImpl beh (some p) = (Outcome.abort, [Event.finalizerRan p])) := by
  subst h
  refine ⟨?_, rfl, ?_, ?_⟩
  · simp [catch_unwind_wrapped, catchUnwind, Res.bind]
  · intro hp
    simp [Payload.dropImpl, drop_or_abort, drop_or_else, dropValue, hp, catchUnwind,
      Res.bind, abortEff]
  · intro q hq
    simp [Payload.dropImpl, drop_or_abort, drop_or_else, dropValue, hq, catchUnwind,
      Res.bind, abortEff]

/-- Witness for C4 at concrete inputs: work panicking with payload `4`, whose
finalizer raises `9`, so the unconsumed drop terminates the process. -/
theorem c4_unconsumed_drop_aborts_witness :
    catch_unwind_wrapped ((Outcome.panic 4 : Outcome Nat Unit), []) =
      (Outcome.ok (Except.error (some 4)), []) ∧
    Payload.dropImpl (fun _ : Nat => some 9) (some 4) =
      drop_or_abort (fun _ : Nat => some 9) 4 ∧
    Payload.dropImpl (fun _ : Nat => some 9) (some 4) =
      (Outcome.abort, [Event.finalizerRan 4]) :=
  have h := c4_unconsumed_drop_aborts (fun _ : Nat => some 9)
    ((Outcome.panic 4 : Outcome Nat Unit), []) 4 [] rfl
  ⟨h.1, h.2.1, h.2.2.2 9 rfl⟩

/-- C7: for a carrier in the payload-present state, `resume_unwind` re-raises
the original interruption with the very same payload (it does not return
normally), and an enclosing boundary catching that outcome observes exactly the
original payload. -/
theorem c7_resume_reraises {V R : Type} (w : Res V R) (p : V) (l : List (Event V))
    (h : w = (Outcome.panic p, l)) :
    catch_unwind_wrapped w = (Outcome.ok (Except.error (some p)), l) ∧
    Payload.resumeUnwind (some p) = some ((Outcome.panic p : Outcome V Unit), []) ∧
    (Outcome.panic p : Outcome V Unit) ≠ Outcome.ok () ∧
    catchUnwind ((Outcome.panic p : Outcome V Unit), ([] : List (Event V))) =
      (Outcome.ok (Except.error p), []) := by
  subst h
  refine ⟨?_, rfl, fun he => Outcome.noConfusion he, rfl⟩
  simp [catch_unwind_wrapped, catchUnwind, Res.bind]

/-- Witness for C7 at a concrete input: work panicking with payload `11`. -/
theorem c7_resume_reraises_witness :
    catch_unwind_wrapped ((Outcome.panic 11 : Outcome Nat Unit), []) =
      (Outcome.ok (Except.error (some 11)), []) ∧
    Payload.resumeUnwind (some 11) = some ((Outcome.panic 11 : Outcome Nat Unit), []) ∧
    (Outcome.panic 11 : Outcome Nat Unit) ≠ Outcome.ok () ∧
    catchUnwind ((Outcome.panic 11 : Outcome Nat Unit), ([] : List (Event Nat))) =
      (Outcome.ok (Except.error 11), []) :=
  c7_resume_reraises ((Outcome.panic 11 : Outcome Nat Unit), []) 11 [] rfl

/-- C10: `catch_unwind_or_abort` is observationally equivalent to running
`catch_unwind_wrapped`, mapping `Ok(r)` to `Some(r)`, and mapping
`Err(carrier)` to `None` after letting the carrier go out of scope unconsumed,
so that its default abort-on-panicking-drop `Drop` impl runs. -/
theorem c10_or_abort_refines_wrapped {V R : Type} (beh : DropBeh V) (w : Res V R) :
    wrappedThenDefaultDrop beh w = catch_unwind_or_abort beh w := by
  obtain ⟨o, l⟩ := w
  cases o <;>
    simp [wrappedThenDefaultDrop, catch_unwind_or_abort, catch_unwind_wrapped,
      Payload.dropImpl, catchUnwind, Res.bind]

/-- Helper: a prefix of borrowing operations neither changes the carrier state
nor fails any internal check. -/
theorem runOps_borrow_segment {V : Type} (v : V) (pre : List PubOp)
    (h : ∀ o ∈ pre, consuming o = false) (rest : List PubOp) :
    runOps (some v) (pre ++ rest) = runOps (some v) rest := by
  induction pre with
  | nil => simp
  | cons o pre ih =>
    have ho : consuming o = false := h o (by simp)
    have hpre : ∀ x ∈ pre, consuming x = false := fun x hx => h x (by simp [hx])
    cases o
    case get => simp [runOps, stepOp, Payload.get, ih hpre]
    case getMut => simp [runOps, stepOp, Payload.get_mut, ih hpre]
    all_goals simp [consuming] at ho

/-- C5: a Payload carrier is always in one of the two states payload-present or
payload-consumed; along every operation sequence the public contract permits
(borrows followed by exactly one consuming operation), no internal check ever
fails — in particular `get` and `get_mut` are only invoked in the
payload-present state, so their failure branch is unreachable — and the final
state is consumed; and in the consumed state no operation can extract the
payload again. -/
theorem c5_carrier_state_machine {V : Type} (v : V) (ops : List PubOp)
    (h : LegalTrace ops) :
    runOps (some v) ops = (none, true) ∧
    Payload.get (none : Option V) = none ∧
    Payload.get_mut (none : Option V) = none ∧
    Payload.into_inner (none : Option V) = none := by
  obtain ⟨pre, last, rfl, hpre, hlast⟩ := h
  refine ⟨?_, rfl, rfl, rfl⟩
  rw [runOps_borrow_segment v pre hpre [last]]
  cases last <;>
    simp [runOps, stepOp, Payload.get, Payload.get_mut, Payload.into_inner,
      consuming] at hlast ⊢

/-- Witness for C5 at a concrete trace: borrow twice, then consume via
`into_inner`, starting from the payload `0`. -/
theorem c5_carrier_state_machine_witness :
    runOps (some (0 : Nat)) [PubOp.get, PubOp.getMut, PubOp.intoInner] = (none, true) ∧
    Payload.get (none : Option Nat) = none ∧
    Payload.get_mut (none : Option Nat) = none ∧
    Payload.into_inner (none : Option Nat) = none :=
  c5_carrier_state_machine 0 [PubOp.get, PubOp.getMut, PubOp.intoInner]
    ⟨[PubOp.get, PubOp.getMut], PubOp.intoInner, rfl, by decide, rfl⟩

/-- C3: the library provides `catch_unwind_with(work, inspect) : Option R`,
where `inspect` maps a borrowed view of the captured payload to a
`Disposition` drawn from the closed set `DropOrAbort | DropOrForget |
DropOrUnwind | ResumeUnwind`; and if `inspect` itself raises an interruption
the process is terminated immediately. -/
theorem c3_inspect_fault_aborts {V R : Type} (beh : DropBeh V) (w : Res V R)
    (inspect : V → Res V Disposition) (p q : V) (l li : List (Event V))
    (hw : w = (Outcome.panic p, l)) (hi : inspect p = (Outcome.panic q, li)) :
    (∀ d : Disposition, d = Disposition.dropOrAbort ∨ d = Disposition.dropOrForget ∨
      d = Disposition.dropOrUnwind ∨ d = Disposition.resumeUnwind) ∧
    catch_unwind_with beh w inspect = ((Outcome.abort : Outcome V (Option R)), l ++ li) := by
  subst hw
  constructor
  · intro d
    cases d
    · exact Or.inl rfl
    · exact Or.inr (Or.inl rfl)
    · exact Or.inr (Or.inr (Or.inl rfl))
    · exact Or.inr (Or.inr (Or.inr rfl))
  · simp [catch_unwind_with, catchUnwind, Res.bind, hi]

/-- Witness for C3 at concrete inputs: work panicking with payload `1`, an
inspection function that itself panics with payload `2`. -/
theorem c3_inspect_fault_aborts_witness :
    (Disposition.resumeUnwind = Disposition.dropOrAbort ∨
      Disposition.resumeUnwind = Disposition.dropOrForget ∨
      Disposition.resumeUnwind = Disposition.dropOrUnwind ∨
      Disposition.resumeUnwind = Disposition.resumeUnwind) ∧
    catch_unwind_with (fun _ : Nat => none) ((Outcome.panic 1 : Outcome Nat Unit), [])
        (fun _ => (Outcome.panic 2, [])) =
      ((Outcome.abort : Outcome Nat (Option Unit)), [] ++ []) :=
  have h := c3_inspect_fault_aborts (fun _ : Nat => none)
    ((Outcome.panic 1 : Outcome Nat Unit), []) (fun _ => (Outcome.panic 2, []))
    1 2 [] [] rfl rfl
  ⟨h.1 Disposition.resumeUnwind, h.2⟩

end CatchUnwind
